import Mathlib

/-!
Shallow embedding of the address-segmentation GeoApp repository
(`src/app/GeoApp.py` and `src/app/GeoAppCmd.py`).

Modelling conventions:

* A pandas row of the location table becomes a `LocationRecord`; the
  in-memory table is a `List LocationRecord` in file order.
* Coordinates and the proximity threshold are rationals (`ℚ`).  The
  geodesic distance `geopy.distance.distance(..).km` is an external
  floating-point library call, so all theorems are parametric in a
  distance function `dist : ℚ × ℚ → ℚ × ℚ → ℚ`; nothing is assumed
  about it, the proved properties are structural.
* The external geocoding services (Nominatim via geopy, pgeocode) are
  inputs of the model (`GeoEnv`): the responses they would give for the
  submitted postal code.
* GUI / console effects are recorded in a result structure: which error
  dialogs were shown, whether a map was rendered (and with which data
  frame and centre coordinates), and whether the Python code raised an
  unhandled exception (`crashed`).
* `pandas.DataFrame.sort_values` is called with its default
  `kind='quicksort'`, which does not guarantee a stable sort; the model
  uses `List.insertionSort`, and no theorem below relies on the order of
  records whose proximity values tie.
-/

/-- One row of the location table loaded from `locations.pkl`
(columns `address`, `postal_code`, `latitude`, `longitude`). -/
structure LocationRecord where
  address : String
  postal_code : String
  latitude : ℚ
  longitude : ℚ
deriving DecidableEq, Repr

/-- The distance of a table row from the user coordinate, i.e. the value
`distance.distance((user_latitude, user_longitude), (row.latitude, row.longitude)).km`
computed row-wise in `filter_locations` (and stored in the `proximity`
column of the sorted data frame). -/
def proximity (dist : ℚ × ℚ → ℚ × ℚ → ℚ) (user_latitude user_longitude : ℚ)
    (row : LocationRecord) : ℚ :=
  dist (user_latitude, user_longitude) (row.latitude, row.longitude)

instance decRelKeyLe (d : LocationRecord → ℚ) :
    DecidableRel (fun a b : LocationRecord => d a ≤ d b) :=
  fun a b => inferInstanceAs (Decidable (d a ≤ d b))

instance isTotalKeyLe (d : LocationRecord → ℚ) :
    IsTotal LocationRecord (fun a b : LocationRecord => d a ≤ d b) :=
  ⟨fun a b => le_total (d a) (d b)⟩

instance isTransKeyLe (d : LocationRecord → ℚ) :
    IsTrans LocationRecord (fun a b : LocationRecord => d a ≤ d b) :=
  ⟨fun _ _ _ hab hbc => le_trans hab hbc⟩

namespace GeoApp

/-- `GeoApp.check_location_in_sg`: true iff the latitude lies in
`[1.15, 1.47]` and the longitude in `[103.6, 104.1]` (both inclusive,
Python chained comparisons). -/
def check_location_in_sg (latitude longitude : ℚ) : Bool :=
  ((1.15 : ℚ) ≤ latitude && latitude ≤ (1.47 : ℚ)) &&
    ((103.6 : ℚ) ≤ longitude && longitude ≤ (104.1 : ℚ))

/-- `GeoApp.filter_locations`: keep the rows whose distance from the user
coordinate is at most the threshold, then (when the filtered frame is
nonempty) sort ascending by the recomputed `proximity` column.
The pandas sort is modelled with `List.insertionSort`; see the header
note about `kind='quicksort'`. -/
def filter_locations (dist : ℚ × ℚ → ℚ × ℚ → ℚ) (location_data : List LocationRecord)
    (user_latitude user_longitude proximity_threshold : ℚ) : List LocationRecord :=
  let d := proximity dist user_latitude user_longitude
  let filtered_locations := location_data.filter (fun row => d row ≤ proximity_threshold)
  if filtered_locations.isEmpty then filtered_locations
  else List.insertionSort (fun a b => d a ≤ d b) filtered_locations

/-- `GeoApp.extract_postal_code`: the text of the first entity labelled
`POSTAL_CODE` among the entities the NLP model produced, or none. -/
def extract_postal_code (ent_list : List (String × String)) : Option String :=
  (ent_list.find? (fun e => e.2 == "POSTAL_CODE")).map (fun e => e.1)

/-- `GeoApp.get_zoom_level`'s call `np.interp(x, [x1, x2], [y1, y2])`:
clamp to `y1` below `x1`, to `y2` above `x2`, linear in between. -/
def np_interp (x x1 x2 y1 y2 : ℚ) : ℚ :=
  if x ≤ x1 then y1
  else if x2 ≤ x then y2
  else y1 + (x - x1) * (y2 - y1) / (x2 - x1)

/-- Python `int(..)` on a rational: truncation toward zero. -/
def pyInt (q : ℚ) : ℤ :=
  if 0 ≤ q then ⌊q⌋ else ⌈q⌉

/-- `GeoApp.get_zoom_level`: interpolate the threshold from
`[0.1, 10]` to the zoom range `[17, 12]` and truncate to an integer. -/
def get_zoom_level (proximity_threshold : ℚ) : ℤ :=
  pyInt (np_interp proximity_threshold (0.1 : ℚ) 10 17 12)

end GeoApp

/-- Responses of the external geocoding services for the submitted postal
code.  `geopyResult` is what `Nominatim.geocode` returns (`none` for a
falsy result).  For pgeocode, `query_postal_code` returns a pandas
Series: `pgeocodeEmpty` is its `.empty` flag and `pgeocodeCoord` its
`latitude`/`longitude` fields when it is non-empty. -/
structure GeoEnv where
  geopyResult : Option (ℚ × ℚ)
  pgeocodeEmpty : Bool
  pgeocodeCoord : ℚ × ℚ
deriving DecidableEq, Repr

/-- A call of `display_map` that completed: the data frame passed (none
for the empty-result branch) and the map centre coordinates. -/
structure MapRender where
  df : Option (List LocationRecord)
  latitude : ℚ
  longitude : ℚ
deriving DecidableEq, Repr

/-- Observable outcome of one `process_user_input` invocation: how many
times each geocoding service was called, which error dialogs were shown
(in order), whether a map was rendered, and whether the Python code
raised an unhandled exception. -/
structure RunResult where
  geopyCalls : Nat
  pgeocodeCalls : Nat
  errors : List String
  renderedMap : Option MapRender
  crashed : Option String
deriving DecidableEq, Repr

namespace GeoApp

/-- `GeoApp.address_to_lat_long`: dispatch on the `geo_service` string.
The geopy branch returns the service result directly (falling through to
an implicit `None` when it is falsy); the pgeocode branch returns the
Series unless it is empty, in which case the function also falls through
to an implicit `None`; any other service name returns `None`. -/
def address_to_lat_long (env : GeoEnv) (geo_service : String) : Option (ℚ × ℚ) :=
  if geo_service = "geopy" then env.geopyResult
  else if geo_service = "pgeocode" then
    if env.pgeocodeEmpty then none else some env.pgeocodeCoord
  else none

/-- `GeoApp.check_user_input`, with Python's `float(..)` modelled by the
parameter `pyFloat` (`none` when `float` raises `ValueError`).  Returns
the Boolean result together with the error dialogs displayed. -/
def check_user_input (pyFloat : String → Option ℚ)
    (input_address proximity_threshold : String) : Bool × List String :=
  if input_address = "" then (false, ["Please enter an address."])
  else if proximity_threshold = "" then (false, ["Please enter a proximity threshold."])
  else
    match pyFloat proximity_threshold with
    | some v =>
        if v ≤ 0 then (false, ["Proximity threshold must be a positive number."])
        else (true, [])
    | none => (false, ["Proximity threshold must be a valid number."])

/-- The tail of `process_user_input` once a coordinate passed
`check_location_in_sg`: filter the table and either render the map with
the filtered frame, or — on an empty result — call
`display_map(None, input_address, lat, lng, threshold)`, which omits the
required `map_type` argument and raises `TypeError` before the
informational dialog is reached. -/
def render_locations (dist : ℚ × ℚ → ℚ × ℚ → ℚ) (location_data : List LocationRecord)
    (g p : Nat) (user_latitude user_longitude proximity_threshold : ℚ) : RunResult :=
  let filtered_locations :=
    filter_locations dist location_data user_latitude user_longitude proximity_threshold
  if filtered_locations.isEmpty then
    { geopyCalls := g, pgeocodeCalls := p, errors := [], renderedMap := none,
      crashed := some "TypeError: display_map missing 1 required positional argument: map_type" }
  else
    { geopyCalls := g, pgeocodeCalls := p, errors := [],
      renderedMap := some
        { df := some filtered_locations,
          latitude := user_latitude, longitude := user_longitude },
      crashed := none }

/-- `GeoApp.process_user_input`: validate the input, geocode with geopy,
retry once with pgeocode when the coordinate is outside Singapore (the
retry result is dereferenced without a `None` check), then filter and
display.  `location_data` is the loaded table, `env` the geocoder
responses for the extracted postal code. -/
def process_user_input (pyFloat : String → Option ℚ) (env : GeoEnv)
    (dist : ℚ × ℚ → ℚ × ℚ → ℚ) (location_data : List LocationRecord)
    (input_address proximity_text : String) : RunResult :=
  let checked := check_user_input pyFloat input_address proximity_text
  if checked.1 then
    let proximity_threshold := (pyFloat proximity_text).getD 0
    match address_to_lat_long env "geopy" with
    | some (user_latitude, user_longitude) =>
        if check_location_in_sg user_latitude user_longitude then
          render_locations dist location_data 1 0 user_latitude user_longitude
            proximity_threshold
        else
          match address_to_lat_long env "pgeocode" with
          | some (lat2, lng2) =>
              if check_location_in_sg lat2 lng2 then
                render_locations dist location_data 1 1 lat2 lng2 proximity_threshold
              else
                { geopyCalls := 1, pgeocodeCalls := 1,
                  errors := ["Unable to retrieve valid coordinates in Singapore"],
                  renderedMap := none, crashed := none }
          | none =>
              { geopyCalls := 1, pgeocodeCalls := 1, errors := [], renderedMap := none,
                crashed := some "AttributeError: NoneType object has no attribute latitude" }
    | none =>
        { geopyCalls := 1, pgeocodeCalls := 0,
          errors := ["Unable to retrieve coordinates for the address"],
          renderedMap := none, crashed := none }
  else
    { geopyCalls := 0, pgeocodeCalls := 0, errors := checked.2,
      renderedMap := none, crashed := none }

end GeoApp

namespace GeoAppCmd

/-- `GeoAppCmd.filter_locations`: the same row-wise distance filter as the
GUI version, but with no sorting step — rows stay in table order. -/
def filter_locations (dist : ℚ × ℚ → ℚ × ℚ → ℚ) (location_data : List LocationRecord)
    (user_latitude user_longitude proximity_threshold : ℚ) : List LocationRecord :=
  location_data.filter
    (fun row => proximity dist user_latitude user_longitude row ≤ proximity_threshold)

/-- Console outcome of one iteration of the `GeoAppCmd.run` loop. -/
structure CmdResult where
  renderedMap : Option MapRender
  messages : List String
deriving DecidableEq, Repr

/-- One iteration of `GeoAppCmd.run` after the user input was read:
geocode once with geopy (no fallback), and when a coordinate comes back
filter the table and display the map — without any bounding-box check. -/
def run_iteration (geopyResult : Option (ℚ × ℚ)) (dist : ℚ × ℚ → ℚ × ℚ → ℚ)
    (location_data : List LocationRecord) (proximity_threshold : ℚ) : CmdResult :=
  match geopyResult with
  | some (user_latitude, user_longitude) =>
      let filtered_locations :=
        filter_locations dist location_data user_latitude user_longitude proximity_threshold
      if filtered_locations.isEmpty then
        { renderedMap := none,
          messages := ["No locations found within the specified proximity."] }
      else
        { renderedMap := some
            { df := some filtered_locations,
              latitude := user_latitude, longitude := user_longitude },
          messages := [] }
  | none =>
      { renderedMap := none,
        messages := ["Unable to retrieve coordinates for the address"] }

end GeoAppCmd

/-! ### Concrete sample data for witnesses and counterexamples

The geodesic distance of `geopy` is an external floating-point library,
so concrete instantiations use `l1dist`, a simple exact metric; the
parametric theorems hold for every distance function. -/

/-- A concrete sample distance function (L1 metric on coordinates,
written with explicit conditionals so the kernel can evaluate it). -/
def l1dist (p q : ℚ × ℚ) : ℚ :=
  (if p.1 ≤ q.1 then q.1 - p.1 else p.1 - q.1) +
    (if p.2 ≤ q.2 then q.2 - p.2 else p.2 - q.2)

/-- Sample model of Python `float(..)` used in concrete runs. -/
def samplePyFloat (s : String) : Option ℚ :=
  if s = "2" then some 2
  else if s = "-1" then some (-1)
  else none

/-- Sample record at L1 distance 1 from the origin. -/
def recNear : LocationRecord := ⟨"Near Road", "100001", 1, 0⟩

/-- Sample record at L1 distance 2 from the origin, listed first. -/
def recFar : LocationRecord := ⟨"Far Road", "100002", 2, 0⟩

/-- Sample record inside the Singapore bounding box. -/
def recSG : LocationRecord := ⟨"SG Road", "100003", 1.3, 103.8⟩

/-- Sample record at latitude 50, longitude 0 (outside the box). -/
def recAt50 : LocationRecord := ⟨"Atlantic Road", "100004", 50, 0⟩

/-! ### Helper lemmas about the filters -/

/-- Membership in the GUI filter result: exactly the table rows within
the threshold. -/
theorem mem_geoapp_filter_locations {dist : ℚ × ℚ → ℚ × ℚ → ℚ}
    {table : List LocationRecord} {ulat ulng t : ℚ} {r : LocationRecord} :
    r ∈ GeoApp.filter_locations dist table ulat ulng t ↔
      r ∈ table ∧ proximity dist ulat ulng r ≤ t := by
  simp only [GeoApp.filter_locations]
  split
  · simp [List.mem_filter]
  · simp [List.mem_filter]

/-- The GUI filter result is sorted by the proximity key. -/
theorem sorted_geoapp_filter_locations (dist : ℚ × ℚ → ℚ × ℚ → ℚ)
    (table : List LocationRecord) (ulat ulng t : ℚ) :
    List.Sorted (fun a b => proximity dist ulat ulng a ≤ proximity dist ulat ulng b)
      (GeoApp.filter_locations dist table ulat ulng t) := by
  simp only [GeoApp.filter_locations]
  split
  · next h => rw [List.isEmpty_iff.mp h]; exact List.sorted_nil
  · exact List.sorted_insertionSort _ _

/-- The GUI filter result has the same length as the raw filtered list
(the sort is a permutation). -/
theorem length_geoapp_filter_locations (dist : ℚ × ℚ → ℚ × ℚ → ℚ)
    (table : List LocationRecord) (ulat ulng t : ℚ) :
    (GeoApp.filter_locations dist table ulat ulng t).length =
      (table.filter (fun row => proximity dist ulat ulng row ≤ t)).length := by
  simp only [GeoApp.filter_locations]
  split
  · rfl
  · exact (List.perm_insertionSort _ _).length_eq

/-! ### Claim theorems -/

/-- C1 counterexample.  The claim quantifies over both cited
implementations, but `GeoAppCmd.filter_locations` performs no sort: with
the user at the origin, a table listing a record at distance 2 before a
record at distance 1 and threshold 3, both records pass the filter and
are returned in table order, which is not non-decreasing in distance. -/
theorem C1_counterexample :
    GeoAppCmd.filter_locations l1dist [recFar, recNear] 0 0 3 = [recFar, recNear] ∧
      ¬ (proximity l1dist 0 0 recFar ≤ proximity l1dist 0 0 recNear) := by
  constructor
  · norm_num [GeoAppCmd.filter_locations, proximity, l1dist, recFar, recNear]
  · norm_num [proximity, l1dist, recFar, recNear]

/-- C1 amended: for every distance function, location table, query
coordinate and positive threshold, every record returned by either
`filter_locations` has distance at most the threshold, and the records
returned by `GeoApp.filter_locations` (the GUI version, which sorts) are
ordered by non-decreasing distance; `GeoAppCmd.filter_locations` keeps
the original table order. -/
theorem C1_amended_filter_within_and_sorted (dist : ℚ × ℚ → ℚ × ℚ → ℚ)
    (table : List LocationRecord) (ulat ulng t : ℚ) (_hpos : 0 < t) :
    (∀ r ∈ GeoApp.filter_locations dist table ulat ulng t,
        proximity dist ulat ulng r ≤ t) ∧
      List.Sorted (fun a b => proximity dist ulat ulng a ≤ proximity dist ulat ulng b)
        (GeoApp.filter_locations dist table ulat ulng t) ∧
      (∀ r ∈ GeoAppCmd.filter_locations dist table ulat ulng t,
        proximity dist ulat ulng r ≤ t) := by
  refine ⟨fun r hr => (mem_geoapp_filter_locations.mp hr).2,
    sorted_geoapp_filter_locations dist table ulat ulng t, fun r hr => ?_⟩
  have := List.mem_filter.mp hr
  simpa using this.2

/-- C1 witness: the amended theorem applied at a concrete input. -/
theorem C1_witness :
    (0 : ℚ) < 2 ∧
      ((∀ r ∈ GeoApp.filter_locations l1dist [recNear] 0 0 2,
          proximity l1dist 0 0 r ≤ 2) ∧
        List.Sorted (fun a b => proximity l1dist 0 0 a ≤ proximity l1dist 0 0 b)
          (GeoApp.filter_locations l1dist [recNear] 0 0 2) ∧
        (∀ r ∈ GeoAppCmd.filter_locations l1dist [recNear] 0 0 2,
          proximity l1dist 0 0 r ≤ 2)) :=
  ⟨by norm_num, C1_amended_filter_within_and_sorted l1dist [recNear] 0 0 2 (by norm_num)⟩

/-- C9: when the threshold dominates the distance of every table row
from the query coordinate, the filter keeps the whole table, so the
result size equals the table size. -/
theorem C9_full_table_when_threshold_dominates (dist : ℚ × ℚ → ℚ × ℚ → ℚ)
    (table : List LocationRecord) (ulat ulng t : ℚ)
    (h : ∀ r ∈ table, proximity dist ulat ulng r ≤ t) :
    (GeoApp.filter_locations dist table ulat ulng t).length = table.length := by
  rw [length_geoapp_filter_locations]
  have : table.filter (fun row => proximity dist ulat ulng row ≤ t) = table :=
    List.filter_eq_self.mpr (fun a ha => by simpa using h a ha)
  rw [this]

/-- C9 witness: the theorem applied at a concrete input. -/
theorem C9_witness :
    (∀ r ∈ [recNear], proximity l1dist 0 0 r ≤ 2) ∧
      (GeoApp.filter_locations l1dist [recNear] 0 0 2).length = [recNear].length :=
  ⟨by norm_num [proximity, l1dist, recNear],
    C9_full_table_when_threshold_dominates l1dist [recNear] 0 0 2
      (by norm_num [proximity, l1dist, recNear])⟩

/-- Sample environment: geopy resolves to latitude 50, longitude 0
(outside the Singapore box); pgeocode returns a non-empty Series at the
origin (also outside the box). -/
def envGeopyOut : GeoEnv :=
  { geopyResult := some (50, 0), pgeocodeEmpty := false, pgeocodeCoord := (0, 0) }

/-- Sample environment: geopy returns no result. -/
def envGeopyNone : GeoEnv :=
  { geopyResult := none, pgeocodeEmpty := false, pgeocodeCoord := (0, 0) }

/-- Sample environment: geopy resolves to a coordinate inside the
Singapore box. -/
def envGeopyIn : GeoEnv :=
  { geopyResult := some (1.3, 103.8), pgeocodeEmpty := false, pgeocodeCoord := (0, 0) }

/-- Sample environment: geopy resolves outside the box and the pgeocode
Series is empty (so the retry returns an implicit `None`). -/
def envGeopyOutPgeoEmpty : GeoEnv :=
  { geopyResult := some (50, 0), pgeocodeEmpty := true, pgeocodeCoord := (0, 0) }


/-- C2: whenever the validated input geocodes via geopy to a coordinate
outside the Singapore bounding box, `process_user_input` calls the
pgeocode fallback exactly once (its call counter is 1 in every
continuation: success, error dialog, or crash). -/
theorem C2_fallback_called_exactly_once (pyFloat : String → Option ℚ) (env : GeoEnv)
    (dist : ℚ × ℚ → ℚ × ℚ → ℚ) (table : List LocationRecord) (addr text : String)
    (lat lng : ℚ)
    (hvalid : (GeoApp.check_user_input pyFloat addr text).1 = true)
    (hgeo : env.geopyResult = some (lat, lng))
    (hout : GeoApp.check_location_in_sg lat lng = false) :
    (GeoApp.process_user_input pyFloat env dist table addr text).pgeocodeCalls = 1 := by
  simp only [GeoApp.process_user_input, GeoApp.address_to_lat_long, GeoApp.render_locations,
    hvalid, hgeo, hout, String.reduceEq, reduceIte, Bool.false_eq_true, if_false, if_true,
    ite_true, ite_false]
  cases hpe : env.pgeocodeEmpty <;> simp only [hpe, reduceIte, Bool.false_eq_true, if_false]
  split
  · split <;> rfl
  · rfl

/-- C2 witness: the theorem applied at a concrete out-of-box geocode. -/
theorem C2_witness :
    (GeoApp.check_user_input samplePyFloat "123 ABC Road Singapore 987123" "2").1 = true ∧
      envGeopyOut.geopyResult = some (50, 0) ∧
      GeoApp.check_location_in_sg 50 0 = false ∧
      (GeoApp.process_user_input samplePyFloat envGeopyOut l1dist []
        "123 ABC Road Singapore 987123" "2").pgeocodeCalls = 1 := by
  have h1 : (GeoApp.check_user_input samplePyFloat "123 ABC Road Singapore 987123" "2").1
      = true := by
    simp [GeoApp.check_user_input, samplePyFloat]
    norm_num
  have h2 : envGeopyOut.geopyResult = some (50, 0) := rfl
  have h3 : GeoApp.check_location_in_sg 50 0 = false := by
    simp [GeoApp.check_location_in_sg]
    norm_num
  exact ⟨h1, h2, h3, C2_fallback_called_exactly_once samplePyFloat envGeopyOut l1dist []
    "123 ABC Road Singapore 987123" "2" 50 0 h1 h2 h3⟩

/-- C5: a proximity-threshold text that does not parse, or parses to a
value ≤ 0, makes `check_user_input` return `False` with an error dialog
shown, and `process_user_input` performs no geocoding call at all. -/
theorem C5_invalid_threshold_rejected_before_geocoding (pyFloat : String → Option ℚ)
    (env : GeoEnv) (dist : ℚ × ℚ → ℚ × ℚ → ℚ) (table : List LocationRecord)
    (addr text : String)
    (h : pyFloat text = none ∨ ∃ v, pyFloat text = some v ∧ v ≤ 0) :
    (GeoApp.check_user_input pyFloat addr text).1 = false ∧
      (GeoApp.check_user_input pyFloat addr text).2 ≠ [] ∧
      (GeoApp.process_user_input pyFloat env dist table addr text).geopyCalls = 0 ∧
      (GeoApp.process_user_input pyFloat env dist table addr text).pgeocodeCalls = 0 := by
  have hc : (GeoApp.check_user_input pyFloat addr text).1 = false ∧
      (GeoApp.check_user_input pyFloat addr text).2 ≠ [] := by
    unfold GeoApp.check_user_input
    by_cases ha : addr = ""
    · simp [ha]
    · by_cases ht : text = ""
      · simp [ha, ht]
      · rcases h with h | ⟨v, hv, hle⟩
        · simp [ha, ht, h]
        · simp [ha, ht, hv, hle]
  refine ⟨hc.1, hc.2, ?_, ?_⟩ <;>
    simp only [GeoApp.process_user_input, hc.1, Bool.false_eq_true, if_false, reduceIte]

/-- C5 witness: the theorem applied to the concrete threshold text
"-1", which parses to the non-positive value -1. -/
theorem C5_witness :
    (samplePyFloat "-1" = none ∨ ∃ v, samplePyFloat "-1" = some v ∧ v ≤ 0) ∧
      ((GeoApp.check_user_input samplePyFloat "123 ABC Road Singapore 987123" "-1").1 = false ∧
        (GeoApp.check_user_input samplePyFloat "123 ABC Road Singapore 987123" "-1").2 ≠ [] ∧
        (GeoApp.process_user_input samplePyFloat envGeopyIn l1dist []
          "123 ABC Road Singapore 987123" "-1").geopyCalls = 0 ∧
        (GeoApp.process_user_input samplePyFloat envGeopyIn l1dist []
          "123 ABC Road Singapore 987123" "-1").pgeocodeCalls = 0) := by
  have h : samplePyFloat "-1" = none ∨ ∃ v, samplePyFloat "-1" = some v ∧ v ≤ 0 := by
    right
    exact ⟨-1, by simp [samplePyFloat], by norm_num⟩
  exact ⟨h, C5_invalid_threshold_rejected_before_geocoding samplePyFloat envGeopyIn l1dist []
    "123 ABC Road Singapore 987123" "-1" h⟩

/-- C6 counterexample: with a validated input whose primary (geopy)
geocode returns no result, the code reports the error dialog directly —
the pgeocode fallback is never called, refuting the claim that the
secondary geocoder is called before any error is reported. -/
theorem C6_counterexample :
    (GeoApp.process_user_input samplePyFloat envGeopyNone l1dist []
        "123 ABC Road Singapore 987123" "2").pgeocodeCalls = 0 ∧
      (GeoApp.process_user_input samplePyFloat envGeopyNone l1dist []
        "123 ABC Road Singapore 987123" "2").errors =
        ["Unable to retrieve coordinates for the address"] := by
  have hv : (GeoApp.check_user_input samplePyFloat
      "123 ABC Road Singapore 987123" "2").1 = true := by
    simp [GeoApp.check_user_input, samplePyFloat]
    norm_num
  constructor <;>
    simp [GeoApp.process_user_input, GeoApp.address_to_lat_long, hv, envGeopyNone]

/-- C6 amended: when the primary geocoder returns no result for a
validated input, `process_user_input` shows the error dialog directly
without calling the secondary geocoder and renders no map; the fallback
is reserved for out-of-bounds primary results. -/
theorem C6_amended_no_fallback_when_primary_returns_none (pyFloat : String → Option ℚ)
    (env : GeoEnv) (dist : ℚ × ℚ → ℚ × ℚ → ℚ) (table : List LocationRecord)
    (addr text : String)
    (hvalid : (GeoApp.check_user_input pyFloat addr text).1 = true)
    (hgeo : env.geopyResult = none) :
    (GeoApp.process_user_input pyFloat env dist table addr text).pgeocodeCalls = 0 ∧
      (GeoApp.process_user_input pyFloat env dist table addr text).errors =
        ["Unable to retrieve coordinates for the address"] ∧
      (GeoApp.process_user_input pyFloat env dist table addr text).renderedMap = none := by
  simp [GeoApp.process_user_input, GeoApp.address_to_lat_long, hvalid, hgeo]

/-- C6 amended witness: the amended theorem applied at a concrete
no-result geocode. -/
theorem C6_witness :
    (GeoApp.check_user_input samplePyFloat "123 ABC Road Singapore 987123" "2").1 = true ∧
      envGeopyNone.geopyResult = none ∧
      ((GeoApp.process_user_input samplePyFloat envGeopyNone l1dist []
          "123 ABC Road Singapore 987123" "2").pgeocodeCalls = 0 ∧
        (GeoApp.process_user_input samplePyFloat envGeopyNone l1dist []
          "123 ABC Road Singapore 987123" "2").errors =
          ["Unable to retrieve coordinates for the address"] ∧
        (GeoApp.process_user_input samplePyFloat envGeopyNone l1dist []
          "123 ABC Road Singapore 987123" "2").renderedMap = none) := by
  have h1 : (GeoApp.check_user_input samplePyFloat
      "123 ABC Road Singapore 987123" "2").1 = true := by
    simp [GeoApp.check_user_input, samplePyFloat]
    norm_num
  exact ⟨h1, rfl, C6_amended_no_fallback_when_primary_returns_none samplePyFloat envGeopyNone
    l1dist [] "123 ABC Road Singapore 987123" "2" h1 rfl⟩

/-- C3: with a validated query resolving inside the bounding box but an
empty filtered result, the code crashes with a `TypeError` (the
`display_map` call in the empty branch omits the required `map_type`
argument), so no map is rendered and no informational dialog is shown. -/
theorem C3_empty_result_crashes_display :
    (GeoApp.process_user_input samplePyFloat envGeopyIn l1dist []
        "123 ABC Road Singapore 987123" "2").crashed =
        some "TypeError: display_map missing 1 required positional argument: map_type" ∧
      (GeoApp.process_user_input samplePyFloat envGeopyIn l1dist []
        "123 ABC Road Singapore 987123" "2").renderedMap = none ∧
      (GeoApp.process_user_input samplePyFloat envGeopyIn l1dist []
        "123 ABC Road Singapore 987123" "2").errors = [] := by
  have hv : (GeoApp.check_user_input samplePyFloat
      "123 ABC Road Singapore 987123" "2").1 = true := by
    simp [GeoApp.check_user_input, samplePyFloat]
    norm_num
  have hbox : GeoApp.check_location_in_sg (1.3 : ℚ) (103.8 : ℚ) = true := by
    simp [GeoApp.check_location_in_sg]
    norm_num
  refine ⟨?_, ?_, ?_⟩ <;>
    simp [GeoApp.process_user_input, GeoApp.address_to_lat_long, GeoApp.render_locations,
      GeoApp.filter_locations, hv, hbox, envGeopyIn]

/-- C7: with a validated query, an out-of-box geopy result and an empty
pgeocode Series, the retry returns an implicit `None` and the code
dereferences `.latitude` on it: an `AttributeError` terminates the
handler abnormally and no error dialog is shown. -/
theorem C7_pgeocode_no_result_crashes :
    (GeoApp.process_user_input samplePyFloat envGeopyOutPgeoEmpty l1dist []
        "123 ABC Road Singapore 987123" "2").crashed =
        some "AttributeError: NoneType object has no attribute latitude" ∧
      (GeoApp.process_user_input samplePyFloat envGeopyOutPgeoEmpty l1dist []
        "123 ABC Road Singapore 987123" "2").errors = [] ∧
      (GeoApp.process_user_input samplePyFloat envGeopyOutPgeoEmpty l1dist []
        "123 ABC Road Singapore 987123" "2").renderedMap = none := by
  have hv : (GeoApp.check_user_input samplePyFloat
      "123 ABC Road Singapore 987123" "2").1 = true := by
    simp [GeoApp.check_user_input, samplePyFloat]
    norm_num
  have hbox : GeoApp.check_location_in_sg (50 : ℚ) (0 : ℚ) = false := by
    simp [GeoApp.check_location_in_sg]
    norm_num
  refine ⟨?_, ?_, ?_⟩ <;>
    simp [GeoApp.process_user_input, GeoApp.address_to_lat_long, hv, hbox,
      envGeopyOutPgeoEmpty]

/-- C8 counterexample: `GeoAppCmd.run` renders filtered results with no
bounding-box check: a geopy result at latitude 50, longitude 0 — for
which `check_location_in_sg` is `False` — still gets its map rendered
with the matching record. -/
theorem C8_counterexample :
    (GeoAppCmd.run_iteration (some (50, 0)) l1dist [recAt50] 3).renderedMap =
        some { df := some [recAt50], latitude := 50, longitude := 0 } ∧
      GeoApp.check_location_in_sg 50 0 = false := by
  constructor
  · simp [GeoAppCmd.run_iteration, GeoAppCmd.filter_locations, proximity, l1dist, recAt50]
  · simp [GeoApp.check_location_in_sg]
    norm_num
/-- A completed `render_locations` call centres the map at the
coordinate it was given. -/
theorem renderedMap_render_locations {dist : ℚ × ℚ → ℚ × ℚ → ℚ}
    {table : List LocationRecord} {g p : Nat} {ulat ulng t : ℚ} {mr : MapRender}
    (h : (GeoApp.render_locations dist table g p ulat ulng t).renderedMap = some mr) :
    mr.latitude = ulat ∧ mr.longitude = ulng := by
  simp only [GeoApp.render_locations] at h
  split at h
  · simp at h
  · simp only [Option.some.injEq] at h
    subst h
    exact ⟨rfl, rfl⟩

/-- C8 amended: `check_location_in_sg` is `True` exactly on the box
`[1.15, 1.47] x [103.6, 104.1]`, and the GUI `process_user_input`
renders a map only for coordinates for which it is `True`; the
command-line `GeoAppCmd.run` performs no such check (see the
counterexample). -/
theorem C8_amended_gui_renders_only_in_bounds (lat lng : ℚ) (pyFloat : String → Option ℚ)
    (env : GeoEnv) (dist : ℚ × ℚ → ℚ × ℚ → ℚ) (table : List LocationRecord)
    (addr text : String) (mr : MapRender) :
    (GeoApp.check_location_in_sg lat lng = true ↔
        ((1.15 : ℚ) ≤ lat ∧ lat ≤ (1.47 : ℚ) ∧ (103.6 : ℚ) ≤ lng ∧ lng ≤ (104.1 : ℚ))) ∧
      ((GeoApp.process_user_input pyFloat env dist table addr text).renderedMap = some mr →
        GeoApp.check_location_in_sg mr.latitude mr.longitude = true) := by
  constructor
  · simp [GeoApp.check_location_in_sg, and_assoc]
  · intro hr
    simp only [GeoApp.process_user_input, GeoApp.address_to_lat_long, String.reduceEq,
      reduceIte] at hr
    split at hr
    · split at hr
      · split at hr
        · rename_i hin
          obtain ⟨hla, hlo⟩ := renderedMap_render_locations hr
          rw [hla, hlo]
          exact hin
        · split at hr
          · split at hr
            · rename_i hin2
              obtain ⟨hla, hlo⟩ := renderedMap_render_locations hr
              rw [hla, hlo]
              exact hin2
            · simp at hr
          · simp at hr
      · simp at hr
    · simp at hr

/-- C8 amended witness: a concrete in-box run that renders a map,
with the box check evaluated at the rendered centre. -/
theorem C8_witness :
    (GeoApp.process_user_input samplePyFloat envGeopyIn l1dist [recSG]
        "123 ABC Road Singapore 987123" "2").renderedMap =
      some { df := some [recSG], latitude := 1.3, longitude := 103.8 } ∧
      GeoApp.check_location_in_sg
        (MapRender.latitude { df := some [recSG], latitude := 1.3, longitude := 103.8 })
        (MapRender.longitude { df := some [recSG], latitude := 1.3, longitude := 103.8 })
        = true := by
  have hv : (GeoApp.check_user_input samplePyFloat
      "123 ABC Road Singapore 987123" "2").1 = true := by
    simp [GeoApp.check_user_input, samplePyFloat]
    norm_num
  have hbox : GeoApp.check_location_in_sg (1.3 : ℚ) (103.8 : ℚ) = true := by
    simp [GeoApp.check_location_in_sg]
    norm_num
  have hprox : proximity l1dist 1.3 103.8 recSG = 0 := by
    norm_num [proximity, l1dist, recSG]
  have h : (GeoApp.process_user_input samplePyFloat envGeopyIn l1dist [recSG]
      "123 ABC Road Singapore 987123" "2").renderedMap =
      some { df := some [recSG], latitude := 1.3, longitude := 103.8 } := by
    simp [GeoApp.process_user_input, GeoApp.address_to_lat_long, GeoApp.render_locations,
      GeoApp.filter_locations, hv, hbox, hprox, envGeopyIn, samplePyFloat]
  exact ⟨h, (C8_amended_gui_renders_only_in_bounds 1.3 103.8 samplePyFloat envGeopyIn l1dist
    [recSG] "123 ABC Road Singapore 987123" "2"
    { df := some [recSG], latitude := 1.3, longitude := 103.8 }).2 h⟩
/-- Below the lower knot the zoom interpolation clamps to 17. -/
theorem np_interp_zoom_eq_lo {t : ℚ} (h : t ≤ 0.1) :
    GeoApp.np_interp t 0.1 10 17 12 = 17 := by
  unfold GeoApp.np_interp
  rw [if_pos h]

/-- Above the upper knot the zoom interpolation clamps to 12. -/
theorem np_interp_zoom_eq_hi {t : ℚ} (h1 : ¬ t ≤ 0.1) (h2 : (10 : ℚ) ≤ t) :
    GeoApp.np_interp t 0.1 10 17 12 = 12 := by
  unfold GeoApp.np_interp
  rw [if_neg h1, if_pos h2]

/-- Between the knots the zoom interpolation is the line
`17 - (50/99)(t - 1/10)`. -/
theorem np_interp_zoom_eq_mid {t : ℚ} (h1 : ¬ t ≤ 0.1) (h2 : ¬ (10 : ℚ) ≤ t) :
    GeoApp.np_interp t 0.1 10 17 12 = 17 - (50 / 99) * (t - 1 / 10) := by
  unfold GeoApp.np_interp
  rw [if_neg h1, if_neg h2]
  ring

/-- Bounds of the zoom interpolation: the interpolated value always lies
in `[12, 17]`. -/
theorem np_interp_zoom_bounds (t : ℚ) :
    (12 : ℚ) ≤ GeoApp.np_interp t 0.1 10 17 12 ∧ GeoApp.np_interp t 0.1 10 17 12 ≤ 17 := by
  by_cases hA : t ≤ 0.1
  · rw [np_interp_zoom_eq_lo hA]; norm_num
  · by_cases hB : (10 : ℚ) ≤ t
    · rw [np_interp_zoom_eq_hi hA hB]; norm_num
    · rw [np_interp_zoom_eq_mid hA hB]
      push_neg at hA hB
      constructor <;> · rw [show (0.1 : ℚ) = 1 / 10 from by norm_num] at hA; linarith

/-- The zoom interpolation is non-increasing in the threshold. -/
theorem np_interp_zoom_antitone {t1 t2 : ℚ} (h : t1 ≤ t2) :
    GeoApp.np_interp t2 0.1 10 17 12 ≤ GeoApp.np_interp t1 0.1 10 17 12 := by
  by_cases hA1 : t1 ≤ 0.1
  · rw [np_interp_zoom_eq_lo hA1]
    exact (np_interp_zoom_bounds t2).2
  · by_cases hB1 : (10 : ℚ) ≤ t1
    · have hA2 : ¬ t2 ≤ 0.1 := fun hc => hA1 (le_trans h hc)
      rw [np_interp_zoom_eq_hi hA1 hB1, np_interp_zoom_eq_hi hA2 (le_trans hB1 h)]
    · rw [np_interp_zoom_eq_mid hA1 hB1]
      by_cases hA2 : t2 ≤ 0.1
      · exact absurd (le_trans h hA2) hA1
      · by_cases hB2 : (10 : ℚ) ≤ t2
        · rw [np_interp_zoom_eq_hi hA2 hB2]
          push_neg at hB1
          linarith
        · rw [np_interp_zoom_eq_mid hA2 hB2]
          linarith

/-- `pyInt` is monotone on nonnegative arguments (where it is the floor). -/
theorem pyInt_mono_of_nonneg {a b : ℚ} (ha : 0 ≤ a) (hab : a ≤ b) :
    GeoApp.pyInt a ≤ GeoApp.pyInt b := by
  unfold GeoApp.pyInt
  rw [if_pos ha, if_pos (le_trans ha hab)]
  exact Int.floor_le_floor hab

/-- C10: `get_zoom_level` always returns an integer in `[12, 17]`,
clamps to 17 at or below threshold 0.1 and to 12 at or above 10, and is
non-increasing in the threshold. -/
theorem C10_zoom_level_bounded_and_antitone (t1 t2 : ℚ) (h : t1 ≤ t2) :
    ((12 : ℤ) ≤ GeoApp.get_zoom_level t1 ∧ GeoApp.get_zoom_level t1 ≤ 17) ∧
      (t1 ≤ (0.1 : ℚ) → GeoApp.get_zoom_level t1 = 17) ∧
      ((10 : ℚ) ≤ t1 → GeoApp.get_zoom_level t1 = 12) ∧
      GeoApp.get_zoom_level t2 ≤ GeoApp.get_zoom_level t1 := by
  obtain ⟨hb1, hb2⟩ := np_interp_zoom_bounds t1
  obtain ⟨hc1, hc2⟩ := np_interp_zoom_bounds t2
  have h01 : (0 : ℚ) ≤ GeoApp.np_interp t1 0.1 10 17 12 := by linarith
  have h02 : (0 : ℚ) ≤ GeoApp.np_interp t2 0.1 10 17 12 := by linarith
  refine ⟨⟨?_, ?_⟩, ?_, ?_, ?_⟩
  · rw [GeoApp.get_zoom_level, GeoApp.pyInt, if_pos h01]
    exact Int.le_floor.mpr (by exact_mod_cast hb1)
  · rw [GeoApp.get_zoom_level, GeoApp.pyInt, if_pos h01]
    have hf : (↑⌊GeoApp.np_interp t1 0.1 10 17 12⌋ : ℚ) ≤ 17 :=
      le_trans (Int.floor_le _) hb2
    exact_mod_cast hf
  · intro hlo
    rw [GeoApp.get_zoom_level, np_interp_zoom_eq_lo hlo]
    norm_num [GeoApp.pyInt]
  · intro hhi
    have hA : ¬ t1 ≤ 0.1 := by
      intro hc
      rw [show (0.1 : ℚ) = 1 / 10 from by norm_num] at hc
      linarith
    rw [GeoApp.get_zoom_level, np_interp_zoom_eq_hi hA hhi]
    norm_num [GeoApp.pyInt]
  · exact pyInt_mono_of_nonneg h02 (np_interp_zoom_antitone h)

/-- C10 witness: the theorem applied at thresholds 0.05 and 12. -/
theorem C10_witness :
    (0.05 : ℚ) ≤ 12 ∧
      (((12 : ℤ) ≤ GeoApp.get_zoom_level 0.05 ∧ GeoApp.get_zoom_level 0.05 ≤ 17) ∧
        ((0.05 : ℚ) ≤ (0.1 : ℚ) → GeoApp.get_zoom_level 0.05 = 17) ∧
        ((10 : ℚ) ≤ (0.05 : ℚ) → GeoApp.get_zoom_level 0.05 = 12) ∧
        GeoApp.get_zoom_level 12 ≤ GeoApp.get_zoom_level 0.05) :=
  ⟨by norm_num, C10_zoom_level_bounded_and_antitone 0.05 12 (by norm_num)⟩
